import Mathlib

/-!
# Verification of the wealth-wise loan amortization / debt-optimization engine

Shallow embedding of `src/utils/loanPrepayment.ts` (the single-loan prepayment
impact simulator) and `src/utils/debtRepaymentOptimizer.ts` (the multi-loan
debt repayment strategy optimizer).

Modelling conventions:
* JavaScript `number` arithmetic is modelled over `ℚ` (exact arithmetic).
* Month counts (`loanTenureMonths`, `prepaymentMonth`, elapsed months) are
  modelled as `ℕ`; the source supplies them as JS numbers but every code path
  treats them as whole months.
* `Math.round` is JS rounding (half away from zero towards `+∞`), modelled as
  `⌊q + 1/2⌋` using the computable `Rat.floor`.
* `throw new Error(...)` is modelled by `Except String`.
* The `summary` / `reason` output strings (locale-formatted prose, explicitly
  non-authoritative) are omitted from the result records; no other field is.
* JS `while` loops with an explicit iteration cap are modelled by structural
  recursion on a fuel argument equal to the cap.
-/

namespace WealthWise

/-- JS `Math.round`: rounds to the nearest integer, halves towards `+∞`. -/
def jsRound (q : ℚ) : ℤ :=
  (q + 1/2).floor

/-- `Math.round(x * 100) / 100` as used by the optimizer's interest totals. -/
def round2 (q : ℚ) : ℚ :=
  (jsRound (q * 100) : ℚ) / 100

/-- Whether an `Except`-modelled call succeeded (no `throw` taken). -/
def isOk {α : Type} : Except String α → Bool
  | .ok _ => true
  | .error _ => false

/-! ## Part 1: the loan prepayment impact simulator -/

/-- `LoanPrepaymentInput` of `loanPrepayment.ts`. -/
structure LoanPrepaymentInput where
  loanPrincipal : ℚ
  annualInterestRate : ℚ
  loanTenureMonths : ℕ
  monthlyEMI : ℚ
  outstandingPrincipal : ℚ
  prepaymentAmount : ℚ
  prepaymentMonth : ℕ
deriving DecidableEq, Repr

/-- `LoanPrepaymentResult` of `loanPrepayment.ts` (minus the non-authoritative
`summary` string). The three interest fields are `Math.round`ed to whole
currency units in the source, hence `ℤ`. -/
structure LoanPrepaymentResult where
  interest_before_prepayment : ℤ
  interest_after_prepayment : ℤ
  interest_saved : ℤ
  original_tenure_months : ℕ
  new_tenure_months : ℕ
  tenure_reduction_months : ℤ
deriving DecidableEq, Repr

/-- `calculatePMT`: the annuity EMI formula, with the zero-rate branch. -/
def calculatePMT (principal monthlyRate : ℚ) (tenureMonths : ℕ) : ℚ :=
  if monthlyRate = 0 then principal / tenureMonths
  else principal * monthlyRate * (1 + monthlyRate) ^ tenureMonths /
    ((1 + monthlyRate) ^ tenureMonths - 1)

/-- The month-by-month `while` loop of `calculateLoanPrepaymentImpact`:
`while (remainingPrincipal > 1 && monthsElapsed < SAFE_MAX_MONTHS)`.
`fuel` is the number of iterations still allowed (`SAFE_MAX_MONTHS -
monthsElapsed`), `month` the 1-based number of the month about to be
simulated. Returns the accumulated interest and the number of months
simulated. Inside the source loop, when the payment clears the loan the
branch adjusts `principalForMonth`/`prepaymentThisMonth` and sets
`remainingPrincipal = 0`; only the final balance matters for state, so the
update is `0` in that branch. -/
def prepaymentLoop (monthlyRate emi prepaymentAmount : ℚ) (prepaymentMonth : ℕ) :
    ℕ → ℕ → ℚ → ℚ × ℕ
  | 0, _, _ => (0, 0)
  | fuel + 1, month, principal =>
    if principal > 1 then
      let interestForMonth := principal * monthlyRate
      let principalForMonth := emi - interestForMonth
      let prepaymentThisMonth : ℚ := if month = prepaymentMonth then prepaymentAmount else 0
      let principal' :=
        if principal < principalForMonth + prepaymentThisMonth then 0
        else principal - (principalForMonth + prepaymentThisMonth)
      let rest := prepaymentLoop monthlyRate emi prepaymentAmount prepaymentMonth
        fuel (month + 1) principal'
      (interestForMonth + rest.1, rest.2 + 1)
    else (0, 0)

/-- The monthly rate `annualInterestRate / 12 / 100` of the simulator. -/
def inputMonthlyRate (i : LoanPrepaymentInput) : ℚ :=
  i.annualInterestRate / 12 / 100

/-- The internally recomputed EMI (`calculatedEMI` in the source). -/
def calculatedEMI (i : LoanPrepaymentInput) : ℚ :=
  calculatePMT i.loanPrincipal (inputMonthlyRate i) i.loanTenureMonths

/-- `interestBeforePrepayment = calculatedEMI * loanTenureMonths - loanPrincipal`. -/
def interestBeforePrepayment (i : LoanPrepaymentInput) : ℚ :=
  calculatedEMI i * i.loanTenureMonths - i.loanPrincipal

/-- The prepayment simulation (`SAFE_MAX_MONTHS = loanTenureMonths * 2`),
returning `(totalInterestPaid, monthsElapsed)`. -/
def prepaymentSimulation (i : LoanPrepaymentInput) : ℚ × ℕ :=
  prepaymentLoop (inputMonthlyRate i) (calculatedEMI i) i.prepaymentAmount
    i.prepaymentMonth (2 * i.loanTenureMonths) 1 i.loanPrincipal

/-- `calculateLoanPrepaymentImpact` of `loanPrepayment.ts`. -/
def calculateLoanPrepaymentImpact (i : LoanPrepaymentInput) :
    Except String LoanPrepaymentResult :=
  if i.loanPrincipal ≤ 0 ∨ i.annualInterestRate < 0 ∨ i.loanTenureMonths = 0 ∨
      i.prepaymentAmount ≤ 0 ∨ i.prepaymentMonth = 0 ∨
      i.prepaymentMonth > i.loanTenureMonths then
    .error "Invalid input parameters"
  else
    let sim := prepaymentSimulation i
    let interestSaved := max 0 (interestBeforePrepayment i - sim.1)
    .ok {
      interest_before_prepayment := jsRound (interestBeforePrepayment i)
      interest_after_prepayment := jsRound sim.1
      interest_saved := jsRound interestSaved
      original_tenure_months := i.loanTenureMonths
      new_tenure_months := sim.2
      tenure_reduction_months := max 0 ((i.loanTenureMonths : ℤ) - (sim.2 : ℤ)) }

/-- The validity precondition of `LoanPrepaymentInput` (negation of the
source's validation disjunction). -/
abbrev ValidPrepaymentInput (i : LoanPrepaymentInput) : Prop :=
  0 < i.loanPrincipal ∧ 0 ≤ i.annualInterestRate ∧ 0 < i.loanTenureMonths ∧
    0 < i.prepaymentAmount ∧ 0 < i.prepaymentMonth ∧
    i.prepaymentMonth ≤ i.loanTenureMonths

/-! ## Part 2: the debt repayment optimizer -/

/-- `Loan` of `debtRepaymentOptimizer.ts`. -/
structure Loan where
  loan_name : String
  outstanding_balance : ℚ
  annual_interest_rate : ℚ
  monthly_emi : ℚ
deriving DecidableEq, Repr

/-- `risk_tolerance` enum. -/
inductive RiskTolerance
  | low
  | medium
  | high
deriving DecidableEq, Repr

/-- `DebtRepaymentInput`; the two optional fields keep their source defaults
(`monthly_surplus = 0`, `risk_tolerance = "medium"`) applied at the call. -/
structure DebtRepaymentInput where
  loans : List Loan
  monthly_surplus : Option ℚ
  risk_tolerance : Option RiskTolerance
deriving DecidableEq, Repr

/-- The `recommended_strategy` enum. -/
inductive Strategy
  | avalanche
  | snowball
deriving DecidableEq, Repr

/-- `DebtRepaymentResult` (minus the non-authoritative `reason` string). -/
structure DebtRepaymentResult where
  avalanche_order : List String
  snowball_order : List String
  recommended_strategy : Strategy
  estimated_interest_saved : ℚ
deriving DecidableEq, Repr

/-- The `while` loop of `calculateLoanInterest` (per-loan baseline accrual,
cap 600 months; exits without accruing when the EMI cannot cover the
interest). -/
def loanInterestLoop (monthlyRate monthlyEMI : ℚ) : ℕ → ℚ → ℚ
  | 0, _ => 0
  | fuel + 1, balance =>
    if balance > 1/100 then
      let interestComponent := balance * monthlyRate
      let principalComponent := monthlyEMI - interestComponent
      if principalComponent ≤ 0 then 0
      else interestComponent +
        loanInterestLoop monthlyRate monthlyEMI fuel (balance - principalComponent)
    else 0

/-- `calculateLoanInterest`: baseline total interest of a single loan paid
with only its own EMI, rounded to two decimals. -/
def calculateLoanInterest (outstandingBalance annualInterestRate monthlyEMI : ℚ) : ℚ :=
  round2 (loanInterestLoop (annualInterestRate / 12 / 100) monthlyEMI 600 outstandingBalance)

/-- `calculateBaselineInterest`: sum of the per-loan baselines. -/
def calculateBaselineInterest (loans : List Loan) : ℚ :=
  loans.foldl
    (fun total l =>
      total + calculateLoanInterest l.outstanding_balance l.annual_interest_rate l.monthly_emi)
    0

/-- JS `Map.get` over an association list keyed by loan name (`|| 0` default). -/
def mapGet (m : List (String × ℚ)) (k : String) : ℚ :=
  match m.find? (fun p => p.1 == k) with
  | some p => p.2
  | none => 0

/-- JS `Map.set`: update the existing binding in place, else append. -/
def mapSet : List (String × ℚ) → String → ℚ → List (String × ℚ)
  | [], k, v => [(k, v)]
  | p :: rest, k, v => if p.1 = k then (p.1, v) :: rest else p :: mapSet rest k v

/-- `new Map(loans.map(l => [name, balance]))`: repeated `Map.set`. -/
def initialBalances (loans : List Loan) : List (String × ℚ) :=
  loans.foldl (fun m l => mapSet m l.loan_name l.outstanding_balance) []

/-- JS `Set.add` on the paid-off marker set (kept duplicate-free, so the
list length is the set's `size`). -/
def setAdd (s : List String) (k : String) : List String :=
  if s.contains k then s else s ++ [k]

/-- `availableExtra = monthlySurplus + Σ EMI of paid-off loans`. -/
def availableExtra (loans : List Loan) (paidOff : List String) (monthlySurplus : ℚ) : ℚ :=
  loans.foldl
    (fun acc l => if paidOff.contains l.loan_name then acc + l.monthly_emi else acc)
    monthlySurplus

/-- Working state of one simulated month of `calculateStrategyInterest`. -/
structure MonthState where
  balances : List (String × ℚ)
  paidOff : List String
  interest : ℚ
  extra : ℚ

/-- The inner `for (const loan of loans)` of `calculateStrategyInterest`:
accrue interest, apply the minimum EMI (capped at the balance), and give any
`availableExtra` to the priority loan. -/
def monthStep (priority : String) : List Loan → MonthState → MonthState
  | [], s => s
  | loan :: rest, s =>
    if s.paidOff.contains loan.loan_name then monthStep priority rest s
    else
      let balance := mapGet s.balances loan.loan_name
      if balance ≤ 1/100 then
        monthStep priority rest { s with paidOff := setAdd s.paidOff loan.loan_name }
      else
        let monthlyRate := loan.annual_interest_rate / 12 / 100
        let interestComponent := balance * monthlyRate
        let principalFromEMI := min (loan.monthly_emi - interestComponent) balance
        let newBalance := balance - principalFromEMI
        if loan.loan_name == priority && decide (0 < s.extra) && decide (1/100 < newBalance) then
          let extraPayment := min s.extra newBalance
          let newBalance' := newBalance - extraPayment
          monthStep priority rest {
            balances := mapSet s.balances loan.loan_name (max 0 newBalance')
            paidOff := if newBalance' ≤ 1/100 then setAdd s.paidOff loan.loan_name else s.paidOff
            interest := s.interest + interestComponent
            extra := s.extra - extraPayment }
        else
          monthStep priority rest {
            balances := mapSet s.balances loan.loan_name (max 0 newBalance)
            paidOff := if newBalance ≤ 1/100 then setAdd s.paidOff loan.loan_name else s.paidOff
            interest := s.interest + interestComponent
            extra := s.extra }

/-- The outer `while (paidOffLoans.size < loans.length && months < 600)` loop
of `calculateStrategyInterest`, returning `(totalInterest, months)`. -/
def strategyLoop (loans : List Loan) (repaymentOrder : List String) (monthlySurplus : ℚ) :
    ℕ → List (String × ℚ) → List String → ℚ × ℕ
  | 0, _, _ => (0, 0)
  | fuel + 1, balances, paidOff =>
    if paidOff.length < loans.length then
      match repaymentOrder.find? (fun n => !(paidOff.contains n)) with
      | none => (0, 0)
      | some priority =>
        let s1 := monthStep priority loans
          ⟨balances, paidOff, 0, availableExtra loans paidOff monthlySurplus⟩
        let rest := strategyLoop loans repaymentOrder monthlySurplus fuel s1.balances s1.paidOff
        (s1.interest + rest.1, rest.2 + 1)
    else (0, 0)

/-- `calculateStrategyInterest`: total interest of a repayment ordering,
rounded to two decimals. -/
def calculateStrategyInterest (loans : List Loan) (repaymentOrder : List String)
    (monthlySurplus : ℚ) : ℚ :=
  round2 (strategyLoop loans repaymentOrder monthlySurplus 600 (initialBalances loans) []).1

/-- "`a` sorts no later than `b`" for the avalanche comparator
`(a, b) => b.rate - a.rate, ties b.balance - a.balance` (comparator value
`≤ 0`): interest rate descending, ties by balance descending. -/
abbrev AvalancheBefore (a b : Loan) : Prop :=
  b.annual_interest_rate < a.annual_interest_rate ∨
    (a.annual_interest_rate = b.annual_interest_rate ∧
      b.outstanding_balance ≤ a.outstanding_balance)

/-- "`a` sorts no later than `b`" for the snowball comparator: balance
ascending, ties by interest rate descending. -/
abbrev SnowballBefore (a b : Loan) : Prop :=
  a.outstanding_balance < b.outstanding_balance ∨
    (a.outstanding_balance = b.outstanding_balance ∧
      b.annual_interest_rate ≤ a.annual_interest_rate)

instance : IsTotal Loan AvalancheBefore where
  total a b := by
    unfold AvalancheBefore
    rcases lt_trichotomy a.annual_interest_rate b.annual_interest_rate with h | h | h
    · exact Or.inr (Or.inl h)
    · rcases le_total b.outstanding_balance a.outstanding_balance with hb | hb
      · exact Or.inl (Or.inr ⟨h, hb⟩)
      · exact Or.inr (Or.inr ⟨h.symm, hb⟩)
    · exact Or.inl (Or.inl h)

instance : IsTrans Loan AvalancheBefore where
  trans a b c hab hbc := by
    unfold AvalancheBefore at *
    rcases hab with h1 | ⟨h1, h1'⟩ <;> rcases hbc with h2 | ⟨h2, h2'⟩
    · exact Or.inl (h2.trans h1)
    · exact Or.inl (h2 ▸ h1)
    · exact Or.inl (h1 ▸ h2)
    · exact Or.inr ⟨h2 ▸ h1, h2'.trans h1'⟩

instance : IsTotal Loan SnowballBefore where
  total a b := by
    unfold SnowballBefore
    rcases lt_trichotomy a.outstanding_balance b.outstanding_balance with h | h | h
    · exact Or.inl (Or.inl h)
    · rcases le_total b.annual_interest_rate a.annual_interest_rate with hb | hb
      · exact Or.inl (Or.inr ⟨h, hb⟩)
      · exact Or.inr (Or.inr ⟨h.symm, hb⟩)
    · exact Or.inr (Or.inl h)

instance : IsTrans Loan SnowballBefore where
  trans a b c hab hbc := by
    unfold SnowballBefore at *
    rcases hab with h1 | ⟨h1, h1'⟩ <;> rcases hbc with h2 | ⟨h2, h2'⟩
    · exact Or.inl (h1.trans h2)
    · exact Or.inl (h2 ▸ h1)
    · exact Or.inl (h1 ▸ h2)
    · exact Or.inr ⟨h1.trans h2, h2'.trans h1'⟩

/-- `generateAvalancheOrder`: sort by the avalanche comparator, keep names.
`Array.prototype.sort` is modelled by `List.insertionSort` (any correct
comparison sort: the claims proved about the order are permutation and
pairwise sortedness, which hold of every conforming sort). -/
def generateAvalancheOrder (loans : List Loan) : List String :=
  (List.insertionSort AvalancheBefore loans).map Loan.loan_name

/-- `generateSnowballOrder`: sort by the snowball comparator, keep names. -/
def generateSnowballOrder (loans : List Loan) : List String :=
  (List.insertionSort SnowballBefore loans).map Loan.loan_name

/-- The decision block of `optimizeDebtRepayment` as a function of the two
computed strategy interest totals and the risk tolerance: the 5%-relative
significance threshold, then the tolerance-based near-tie policy. -/
def decisionStrategy (avalancheInterest snowballInterest : ℚ)
    (risk_tolerance : RiskTolerance) : Strategy :=
  let interestDifference := |avalancheInterest - snowballInterest|
  let significantDifference : Bool :=
    decide (min avalancheInterest snowballInterest * (5/100) < interestDifference)
  if decide (avalancheInterest < snowballInterest) && significantDifference then .avalanche
  else if decide (snowballInterest < avalancheInterest) && significantDifference then .snowball
  else match risk_tolerance with
    | .low => .snowball
    | .high => .avalanche
    | .medium =>
      if avalancheInterest ≤ snowballInterest then .avalanche else .snowball

/-- The post-validation body of `optimizeDebtRepayment` (orders, strategy
totals, baseline, decision, estimated savings). -/
def optimizeCore (loans : List Loan) (monthly_surplus : ℚ)
    (risk_tolerance : RiskTolerance) : DebtRepaymentResult :=
  let avalancheOrder := generateAvalancheOrder loans
  let snowballOrder := generateSnowballOrder loans
  let avalancheInterest := calculateStrategyInterest loans avalancheOrder monthly_surplus
  let snowballInterest := calculateStrategyInterest loans snowballOrder monthly_surplus
  let baselineInterest := calculateBaselineInterest loans
  let recommendedStrategy := decisionStrategy avalancheInterest snowballInterest risk_tolerance
  let estimatedInterestSaved : ℚ :=
    match recommendedStrategy with
    | .avalanche => baselineInterest - avalancheInterest
    | .snowball => baselineInterest - snowballInterest
  { avalanche_order := avalancheOrder
    snowball_order := snowballOrder
    recommended_strategy := recommendedStrategy
    estimated_interest_saved := round2 estimatedInterestSaved }

/-- `optimizeDebtRepayment` of `debtRepaymentOptimizer.ts`: validation (with
the source's two error messages and its destructuring defaults
`monthly_surplus = 0`, `risk_tolerance = "medium"`), then the core. -/
def optimizeDebtRepayment (input : DebtRepaymentInput) :
    Except String DebtRepaymentResult :=
  if input.loans.isEmpty then .error "At least one loan is required"
  else if input.loans.any (fun l =>
      l.loan_name == "" || decide (l.outstanding_balance ≤ 0) ||
        decide (l.annual_interest_rate < 0) || decide (l.monthly_emi ≤ 0)) then
    .error "Invalid loan data"
  else
    .ok (optimizeCore input.loans (input.monthly_surplus.getD 0)
      (input.risk_tolerance.getD .medium))

/-- The validity precondition of `DebtRepaymentInput` used by the claims
(non-empty loans, well-formed loan fields, non-negative surplus). -/
abbrev ValidDebtInput (d : DebtRepaymentInput) : Prop :=
  d.loans ≠ [] ∧
    (∀ l ∈ d.loans, l.loan_name ≠ "" ∧ 0 < l.outstanding_balance ∧
      0 ≤ l.annual_interest_rate ∧ 0 < l.monthly_emi) ∧
    0 ≤ d.monthly_surplus.getD 0

/-- The claim's description of the recommendation selector, transcribed from
the specification's words (for comparison with `decisionStrategy`, which is
transcribed from the source): with `diff = |avalancheInterest −
snowballInterest|` and `significant = diff > 0.05 × min(avalancheInterest,
snowballInterest)`, a strictly cheaper strategy with a significant
difference wins regardless of risk tolerance; otherwise `low → snowball`,
`high → avalanche`, `medium → avalanche iff avalancheInterest ≤
snowballInterest`. -/
def recommendStrategySpec (avalancheInterest snowballInterest : ℚ)
    (risk_tolerance : RiskTolerance) : Strategy :=
  if avalancheInterest < snowballInterest ∧
      |avalancheInterest - snowballInterest| >
        (5/100) * min avalancheInterest snowballInterest then .avalanche
  else if snowballInterest < avalancheInterest ∧
      |avalancheInterest - snowballInterest| >
        (5/100) * min avalancheInterest snowballInterest then .snowball
  else match risk_tolerance with
    | .low => .snowball
    | .high => .avalanche
    | .medium =>
      if avalancheInterest ≤ snowballInterest then .avalanche else .snowball

/-- A small two-loan valid portfolio used by concrete witnesses. -/
def sampleDebtInput : DebtRepaymentInput :=
  ⟨[⟨"A", 100, 0, 100⟩, ⟨"B", 50, 12, 30⟩], some 10, some .low⟩

/-- A small valid prepayment input (zero rate keeps witness evaluation
light). -/
def samplePrepaymentInput : LoanPrepaymentInput := ⟨1000, 0, 10, 50, 77, 100, 1⟩

/-- Two benign loans (EMI far above the monthly interest, both paid off in
the first simulated month). The baseline rounds each loan's interest to two
decimals separately (`0.1049 → 0.10` each) while the strategy simulation
rounds the total (`0.2098 → 0.21`), so the reported savings versus baseline
come out negative. -/
def c1FailingInput : DebtRepaymentInput :=
  ⟨[⟨"A", 1049, 12/100, 2000⟩, ⟨"B", 1049, 12/100, 2000⟩], none, none⟩

/-! ## Shared helper lemmas -/

/-- `optimizeCore` projections (definitional unfoldings of the record). -/
theorem optimizeCore_avalanche_order (loans : List Loan) (s : ℚ) (rt : RiskTolerance) :
    (optimizeCore loans s rt).avalanche_order = generateAvalancheOrder loans := rfl

theorem optimizeCore_snowball_order (loans : List Loan) (s : ℚ) (rt : RiskTolerance) :
    (optimizeCore loans s rt).snowball_order = generateSnowballOrder loans := rfl

theorem optimizeCore_recommended (loans : List Loan) (s : ℚ) (rt : RiskTolerance) :
    (optimizeCore loans s rt).recommended_strategy =
      decisionStrategy
        (calculateStrategyInterest loans (generateAvalancheOrder loans) s)
        (calculateStrategyInterest loans (generateSnowballOrder loans) s) rt := rfl

theorem optimizeCore_saved (loans : List Loan) (s : ℚ) (rt : RiskTolerance) :
    (optimizeCore loans s rt).estimated_interest_saved =
      round2 (match decisionStrategy
          (calculateStrategyInterest loans (generateAvalancheOrder loans) s)
          (calculateStrategyInterest loans (generateSnowballOrder loans) s) rt with
        | .avalanche => calculateBaselineInterest loans -
            calculateStrategyInterest loans (generateAvalancheOrder loans) s
        | .snowball => calculateBaselineInterest loans -
            calculateStrategyInterest loans (generateSnowballOrder loans) s) := rfl

/-- The source's decision block agrees with the specification's selector. -/
theorem decisionStrategy_eq_spec (a s : ℚ) (rt : RiskTolerance) :
    decisionStrategy a s rt = recommendStrategySpec a s rt := by
  have hm : (5:ℚ)/100 * (a ⊓ s) = (a ⊓ s) * (5/100) := mul_comm _ _
  unfold decisionStrategy recommendStrategySpec
  rcases lt_trichotomy a s with h | h | h
  · by_cases hX : (a ⊓ s) * (5/100) < |a - s| <;>
      simp [h, hX, hm, asymm h, Bool.and_eq_true, decide_eq_true_eq, gt_iff_lt]
  · subst h
    simp [lt_irrefl, hm, Bool.and_eq_true, decide_eq_true_eq, gt_iff_lt]
  · by_cases hX : (a ⊓ s) * (5/100) < |a - s| <;>
      simp [h, hX, hm, asymm h, not_le.mpr h, Bool.and_eq_true, decide_eq_true_eq,
        gt_iff_lt]

/-- A valid debt input passes both validation guards, so the optimizer
returns the core result. -/
theorem optimizeDebtRepayment_of_valid (d : DebtRepaymentInput) (h : ValidDebtInput d) :
    optimizeDebtRepayment d =
      .ok (optimizeCore d.loans (d.monthly_surplus.getD 0)
        (d.risk_tolerance.getD .medium)) := by
  obtain ⟨hne, hl, -⟩ := h
  unfold optimizeDebtRepayment
  rw [if_neg, if_neg]
  · intro hany
    rw [List.any_eq_true] at hany
    obtain ⟨l, hmem, hflag⟩ := hany
    obtain ⟨hn, hb, hr, he⟩ := hl l hmem
    simp only [Bool.or_eq_true, beq_iff_eq, decide_eq_true_eq] at hflag
    rcases hflag with ((hx | hx) | hx) | hx
    · exact hn hx
    · exact absurd hx (not_le.mpr hb)
    · exact absurd hx (not_lt.mpr hr)
    · exact absurd hx (not_le.mpr he)
  · intro hempty
    rw [List.isEmpty_iff] at hempty
    exact hne hempty

/-- Batteries' computable `Rat.floor` is Mathlib's `⌊·⌋`. -/
theorem rat_floor_eq_intFloor (q : ℚ) : q.floor = ⌊q⌋ :=
  (Rat.floor_def' q).trans Rat.floor_def.symm

theorem jsRound_eq (q : ℚ) : jsRound q = ⌊q + 1/2⌋ :=
  rat_floor_eq_intFloor _

theorem jsRound_nonneg {q : ℚ} (h : 0 ≤ q) : 0 ≤ jsRound q := by
  rw [jsRound_eq]
  exact Int.floor_nonneg.mpr (by linarith)

theorem jsRound_mono {q q' : ℚ} (h : q ≤ q') : jsRound q ≤ jsRound q' := by
  rw [jsRound_eq, jsRound_eq]
  exact Int.floor_le_floor (by linarith)

theorem jsRound_zero : jsRound 0 = 0 := by
  rw [jsRound_eq]
  norm_num

/-- A valid prepayment input passes the validation guard, so the simulator
returns the assembled result record. -/
theorem calculateLoanPrepaymentImpact_of_valid (i : LoanPrepaymentInput)
    (h : ValidPrepaymentInput i) :
    calculateLoanPrepaymentImpact i = .ok {
      interest_before_prepayment := jsRound (interestBeforePrepayment i)
      interest_after_prepayment := jsRound (prepaymentSimulation i).1
      interest_saved :=
        jsRound (max 0 (interestBeforePrepayment i - (prepaymentSimulation i).1))
      original_tenure_months := i.loanTenureMonths
      new_tenure_months := (prepaymentSimulation i).2
      tenure_reduction_months :=
        max 0 ((i.loanTenureMonths : ℤ) - ((prepaymentSimulation i).2 : ℤ)) } := by
  obtain ⟨h1, h2, h3, h4, h5, h6⟩ := h
  unfold calculateLoanPrepaymentImpact
  rw [if_neg]
  push_neg
  exact ⟨h1, h2, h3.ne', h4, h5.ne', h6⟩

/-- With a zero monthly rate the prepayment loop accrues no interest. -/
theorem prepaymentLoop_zero_rate (emi a : ℚ) (m fuel : ℕ) :
    ∀ (month : ℕ) (P : ℚ), (prepaymentLoop 0 emi a m fuel month P).1 = 0 := by
  induction fuel with
  | zero => intro month P; rfl
  | succ n ih =>
    intro month P
    unfold prepaymentLoop
    split
    · simp [ih]
    · rfl

/-- The prepayment loop runs at most `fuel` iterations. -/
theorem prepaymentLoop_months_le_fuel (r emi a : ℚ) (m fuel : ℕ) :
    ∀ (month : ℕ) (P : ℚ), (prepaymentLoop r emi a m fuel month P).2 ≤ fuel := by
  induction fuel with
  | zero => intro month P; exact le_rfl
  | succ n ih =>
    intro month P
    unfold prepaymentLoop
    split
    · exact Nat.succ_le_succ (ih (month + 1) _)
    · exact Nat.zero_le _

/-- The strategy loop simulates at most `fuel` months. -/
theorem strategyLoop_months_le_fuel (loans : List Loan) (order : List String)
    (surplus : ℚ) (fuel : ℕ) :
    ∀ (balances : List (String × ℚ)) (paidOff : List String),
      (strategyLoop loans order surplus fuel balances paidOff).2 ≤ fuel := by
  induction fuel with
  | zero => intro b p; exact le_rfl
  | succ n ih =>
    intro b p
    unfold strategyLoop
    split
    · split
      · exact Nat.zero_le _
      · exact Nat.succ_le_succ (ih _ _)
    · exact Nat.zero_le _

/-- One-step unfolding of the prepayment loop when the balance is above the
currency epsilon. -/
theorem prepaymentLoop_succ_pos (r emi a : ℚ) (m fuel month : ℕ) {P : ℚ}
    (h : P > 1) :
    prepaymentLoop r emi a m (fuel + 1) month P =
      (P * r + (prepaymentLoop r emi a m fuel (month + 1)
          (if P < emi - P * r + (if month = m then a else 0) then 0
           else P - (emi - P * r + (if month = m then a else 0)))).1,
       (prepaymentLoop r emi a m fuel (month + 1)
          (if P < emi - P * r + (if month = m then a else 0) then 0
           else P - (emi - P * r + (if month = m then a else 0)))).2 + 1) := by
  conv_lhs => rw [prepaymentLoop]
  rw [if_pos h]

/-- One-step unfolding of the prepayment loop at or below the epsilon. -/
theorem prepaymentLoop_succ_neg (r emi a : ℚ) (m fuel month : ℕ) {P : ℚ}
    (h : ¬P > 1) :
    prepaymentLoop r emi a m (fuel + 1) month P = (0, 0) := by
  conv_lhs => rw [prepaymentLoop]
  rw [if_neg h]

/-- The prepayment loop accrues a non-negative interest total whenever the
monthly rate is non-negative. -/
theorem prepaymentLoop_interest_nonneg (r emi a : ℚ) (m : ℕ) (hr : 0 ≤ r)
    (fuel : ℕ) :
    ∀ (month : ℕ) (P : ℚ), 0 ≤ (prepaymentLoop r emi a m fuel month P).1 := by
  induction fuel with
  | zero => intro month P; exact le_rfl
  | succ n ih =>
    intro month P
    by_cases h : P > 1
    · rw [prepaymentLoop_succ_pos r emi a m n month h]
      exact add_nonneg (mul_nonneg (by linarith) hr) (ih (month + 1) _)
    · rw [prepaymentLoop_succ_neg r emi a m n month h]

/-- Monotonicity of the prepayment loop in the starting balance: a smaller
balance pays no more interest and takes no more months. -/
theorem prepaymentLoop_mono_principal (r emi a : ℚ) (m : ℕ) (hr : 0 ≤ r)
    (fuel : ℕ) :
    ∀ (month : ℕ) (P₁ P₂ : ℚ), P₁ ≤ P₂ →
      (prepaymentLoop r emi a m fuel month P₁).1 ≤
        (prepaymentLoop r emi a m fuel month P₂).1 ∧
      (prepaymentLoop r emi a m fuel month P₁).2 ≤
        (prepaymentLoop r emi a m fuel month P₂).2 := by
  induction fuel with
  | zero => intro month P₁ P₂ _; exact ⟨le_rfl, le_rfl⟩
  | succ n ih =>
    intro month P₁ P₂ hP
    by_cases h1 : P₁ > 1
    · have h2 : P₂ > 1 := lt_of_lt_of_le h1 hP
      rw [prepaymentLoop_succ_pos r emi a m n month h1,
        prepaymentLoop_succ_pos r emi a m n month h2]
      have hPr : P₁ * r ≤ P₂ * r := mul_le_mul_of_nonneg_right hP hr
      have hQ :
          (if P₁ < emi - P₁ * r + (if month = m then a else 0) then 0
            else P₁ - (emi - P₁ * r + (if month = m then a else 0))) ≤
          (if P₂ < emi - P₂ * r + (if month = m then a else 0) then 0
            else P₂ - (emi - P₂ * r + (if month = m then a else 0))) := by
        by_cases k1 : P₁ < emi - P₁ * r + (if month = m then a else 0)
        · rw [if_pos k1]
          by_cases k2 : P₂ < emi - P₂ * r + (if month = m then a else 0)
          · rw [if_pos k2]
          · rw [if_neg k2]; linarith [not_lt.mp k2]
        · have k2 : ¬P₂ < emi - P₂ * r + (if month = m then a else 0) := by
            intro hk
            have := not_lt.mp k1
            linarith
          rw [if_neg k1, if_neg k2]
          linarith
      obtain ⟨ha1, ha2⟩ := ih (month + 1) _ _ hQ
      dsimp only
      exact ⟨by linarith, Nat.succ_le_succ ha2⟩
    · rw [prepaymentLoop_succ_neg r emi a m n month h1]
      exact ⟨prepaymentLoop_interest_nonneg r emi a m hr (n + 1) month P₂,
        Nat.zero_le _⟩

/-- Antitonicity of the prepayment loop in the prepayment amount: a larger
prepayment pays no more interest and takes no more months. -/
theorem prepaymentLoop_anti_prepayment (r emi : ℚ) (m : ℕ) (hr : 0 ≤ r)
    {a₁ a₂ : ℚ} (ha : a₁ ≤ a₂) (fuel : ℕ) :
    ∀ (month : ℕ) (P : ℚ),
      (prepaymentLoop r emi a₂ m fuel month P).1 ≤
        (prepaymentLoop r emi a₁ m fuel month P).1 ∧
      (prepaymentLoop r emi a₂ m fuel month P).2 ≤
        (prepaymentLoop r emi a₁ m fuel month P).2 := by
  induction fuel with
  | zero => intro month P; exact ⟨le_rfl, le_rfl⟩
  | succ n ih =>
    intro month P
    by_cases h : P > 1
    · rw [prepaymentLoop_succ_pos r emi a₁ m n month h,
        prepaymentLoop_succ_pos r emi a₂ m n month h]
      have hprep : (if month = m then a₁ else 0) ≤ (if month = m then a₂ else 0) := by
        split
        · exact ha
        · exact le_rfl
      have hQ :
          (if P < emi - P * r + (if month = m then a₂ else 0) then 0
            else P - (emi - P * r + (if month = m then a₂ else 0))) ≤
          (if P < emi - P * r + (if month = m then a₁ else 0) then 0
            else P - (emi - P * r + (if month = m then a₁ else 0))) := by
        by_cases k1 : P < emi - P * r + (if month = m then a₁ else 0)
        · have k2 : P < emi - P * r + (if month = m then a₂ else 0) := by linarith
          rw [if_pos k1, if_pos k2]
        · rw [if_neg k1]
          by_cases k2 : P < emi - P * r + (if month = m then a₂ else 0)
          · rw [if_pos k2]; linarith [not_lt.mp k1]
          · rw [if_neg k2]; linarith
      obtain ⟨hb1, hb2⟩ := prepaymentLoop_mono_principal r emi a₂ m hr n (month + 1) _ _ hQ
      obtain ⟨hc1, hc2⟩ := ih (month + 1)
        (if P < emi - P * r + (if month = m then a₁ else 0) then 0
          else P - (emi - P * r + (if month = m then a₁ else 0)))
      dsimp only
      exact ⟨by linarith, Nat.succ_le_succ (le_trans hb2 hc2)⟩
    · rw [prepaymentLoop_succ_neg r emi a₁ m n month h,
        prepaymentLoop_succ_neg r emi a₂ m n month h]
      exact ⟨le_rfl, le_rfl⟩

/-- Amortization bound: if the starting balance is covered by `j` months of
EMI payments (compared at future value), the loop with no prepayment
finishes within `j` months. -/
theorem prepaymentLoop_no_prepay_months (r emi : ℚ) (m : ℕ) (hr : 0 ≤ r)
    (hemi : 0 ≤ emi) :
    ∀ (j fuel month : ℕ) (P : ℚ),
      P * (1 + r) ^ j ≤ emi * (∑ x ∈ Finset.range j, (1 + r) ^ x) →
      (prepaymentLoop r emi 0 m fuel month P).2 ≤ j := by
  intro j
  induction j with
  | zero =>
    intro fuel month P hbound
    simp only [pow_zero, mul_one, Finset.range_zero, Finset.sum_empty, mul_zero] at hbound
    cases fuel with
    | zero => exact le_rfl
    | succ f =>
      rw [prepaymentLoop_succ_neg r emi 0 m f month (by intro hP; linarith)]
  | succ j ihj =>
    intro fuel month P hbound
    cases fuel with
    | zero => exact Nat.zero_le _
    | succ f =>
      by_cases hP : P > 1
      · rw [prepaymentLoop_succ_pos r emi 0 m f month hP]
        have hpow : (0:ℚ) ≤ (1 + r) ^ j := by positivity
        have hsum : (0:ℚ) ≤ ∑ x ∈ Finset.range j, (1 + r) ^ x :=
          Finset.sum_nonneg fun x _ => by positivity
        refine Nat.succ_le_succ (ihj f (month + 1) _ ?_)
        rw [geom_sum_succ', pow_succ, mul_add] at hbound
        by_cases hQ : P < emi - P * r + (if month = m then (0:ℚ) else 0)
        · rw [if_pos hQ, zero_mul]
          exact mul_nonneg hemi hsum
        · rw [if_neg hQ, ite_self]
          have expand : (P - (emi - P * r + 0)) * (1 + r) ^ j =
              P * ((1 + r) ^ j * (1 + r)) - emi * (1 + r) ^ j := by ring
          rw [expand]
          linarith
      · rw [prepaymentLoop_succ_neg r emi 0 m f month hP]
        exact Nat.zero_le _

/-- The monthly rate of a valid input is non-negative. -/
theorem inputMonthlyRate_nonneg (i : LoanPrepaymentInput)
    (h : 0 ≤ i.annualInterestRate) : 0 ≤ inputMonthlyRate i := by
  unfold inputMonthlyRate
  positivity

/-- The recomputed annuity EMI is positive on valid terms. -/
theorem calculatePMT_pos {p r : ℚ} {n : ℕ} (hp : 0 < p) (hr : 0 ≤ r)
    (hn : 0 < n) : 0 < calculatePMT p r n := by
  unfold calculatePMT
  split
  · exact div_pos hp (by exact_mod_cast hn)
  · next hr0 =>
    have hrpos : 0 < r := lt_of_le_of_ne hr (Ne.symm hr0)
    have hpow : 1 < (1 + r) ^ n := one_lt_pow₀ (by linarith) hn.ne'
    apply div_pos
    · have h0 : (0:ℚ) < (1 + r) ^ n := by positivity
      exact mul_pos (mul_pos hp hrpos) h0
    · linarith

/-- The defining identity of the annuity EMI: `n` EMI payments have the same
future value as the principal. -/
theorem calculatePMT_geom (p r : ℚ) {n : ℕ} (hr : 0 ≤ r) (hn : 0 < n) :
    calculatePMT p r n * (∑ x ∈ Finset.range n, (1 + r) ^ x) =
      p * (1 + r) ^ n := by
  unfold calculatePMT
  split
  · next h0 =>
    subst h0
    have hn' : ((n:ℚ)) ≠ 0 := Nat.cast_ne_zero.mpr hn.ne'
    simp only [add_zero, one_pow, Finset.sum_const, Finset.card_range, nsmul_eq_mul,
      mul_one]
    exact div_mul_cancel₀ p hn'
  · next h0 =>
    have hrpos : 0 < r := lt_of_le_of_ne hr (Ne.symm h0)
    have hgeom : (∑ x ∈ Finset.range n, (1 + r) ^ x) * r = (1 + r) ^ n - 1 := by
      have hg := geom_sum_mul (1 + r) n
      simpa using hg
    have hpow : 1 < (1 + r) ^ n := one_lt_pow₀ (by linarith) hn.ne'
    have hden : (1 + r) ^ n - 1 ≠ 0 := sub_ne_zero.mpr (ne_of_gt hpow)
    have hgs : (∑ x ∈ Finset.range n, (1 + r) ^ x) = ((1 + r) ^ n - 1) / r := by
      rw [eq_div_iff hrpos.ne']
      exact hgeom
    rw [hgs]
    field_simp
    ring

/-- For a valid input, the principal is covered by `loanTenureMonths` months
of the recomputed EMI (with equality). -/
theorem principal_le_emi_annuity (i : LoanPrepaymentInput)
    (h : ValidPrepaymentInput i) :
    i.loanPrincipal * (1 + inputMonthlyRate i) ^ i.loanTenureMonths ≤
      calculatedEMI i *
        (∑ x ∈ Finset.range i.loanTenureMonths, (1 + inputMonthlyRate i) ^ x) :=
  le_of_eq (calculatePMT_geom i.loanPrincipal (inputMonthlyRate i)
    (inputMonthlyRate_nonneg i h.2.1) h.2.2.1).symm

/-! ## Claim theorems -/

/-- C3: `calculateLoanPrepaymentImpact` fails with the invalid-input error
exactly when `loanPrincipal ≤ 0`, `annualInterestRate < 0`,
`loanTenureMonths ≤ 0`, `prepaymentAmount ≤ 0`, `prepaymentMonth ≤ 0` or
`prepaymentMonth > loanTenureMonths`; `optimizeDebtRepayment` fails exactly
when the loan list is empty or some loan has an empty name, non-positive
balance, negative rate or non-positive EMI. In all other cases a full
result is produced (no partial result), so in particular
`prepaymentMonth = loanTenureMonths` does not throw. -/
theorem c3_validation_iff :
    ∀ (i : LoanPrepaymentInput) (d : DebtRepaymentInput),
      (isOk (calculateLoanPrepaymentImpact i) = false ↔
        (i.loanPrincipal ≤ 0 ∨ i.annualInterestRate < 0 ∨ i.loanTenureMonths ≤ 0 ∨
          i.prepaymentAmount ≤ 0 ∨ i.prepaymentMonth ≤ 0 ∨
          i.prepaymentMonth > i.loanTenureMonths)) ∧
      (isOk (optimizeDebtRepayment d) = false ↔
        (d.loans = [] ∨ ∃ l ∈ d.loans, l.loan_name = "" ∨ l.outstanding_balance ≤ 0 ∨
          l.annual_interest_rate < 0 ∨ l.monthly_emi ≤ 0)) := by
  intro i d
  constructor
  · unfold calculateLoanPrepaymentImpact
    split
    · next h => simpa [isOk, Nat.le_zero] using h
    · next h => simpa [isOk, Nat.le_zero] using h
  · unfold optimizeDebtRepayment
    split
    · next h => simp [isOk, List.isEmpty_iff.mp h]
    · split
      · next h =>
        simp only [isOk, true_iff]
        rcases List.any_eq_true.mp h with ⟨l, hmem, hl⟩
        refine Or.inr ⟨l, hmem, ?_⟩
        simp only [Bool.or_eq_true, beq_iff_eq, decide_eq_true_eq] at hl
        tauto
      · next hne h =>
        constructor
        · intro hfalse
          exact absurd hfalse (by simp [isOk])
        · intro hrhs
          exfalso
          rcases hrhs with hnil | ⟨l, hmem, hp⟩
          · exact hne (by simp [hnil])
          · rw [Bool.not_eq_true, List.any_eq_false] at h
            have h2 := h l hmem
            simp only [Bool.or_eq_true, beq_iff_eq, decide_eq_true_eq, not_or] at h2
            obtain ⟨⟨⟨hn, hb⟩, hr⟩, he⟩ := h2
            rcases hp with hx | hx | hx | hx
            · exact hn hx
            · exact hb hx
            · exact hr hx
            · exact he hx

/-- C4: the result of `calculateLoanPrepaymentImpact` does not depend on the
`monthlyEMI` and `outstandingPrincipal` input fields: two valid inputs
agreeing on the other five fields produce identical results (the EMI is
recomputed internally and the simulation starts from the full principal). -/
theorem c4_result_ignores_emi_and_outstanding (i₁ i₂ : LoanPrepaymentInput)
    (h : ValidPrepaymentInput i₁)
    (hP : i₁.loanPrincipal = i₂.loanPrincipal)
    (hR : i₁.annualInterestRate = i₂.annualInterestRate)
    (hT : i₁.loanTenureMonths = i₂.loanTenureMonths)
    (hA : i₁.prepaymentAmount = i₂.prepaymentAmount)
    (hM : i₁.prepaymentMonth = i₂.prepaymentMonth) :
    calculateLoanPrepaymentImpact i₁ = calculateLoanPrepaymentImpact i₂ := by
  obtain ⟨p₁, r₁, n₁, e₁, o₁, a₁, m₁⟩ := i₁
  obtain ⟨p₂, r₂, n₂, e₂, o₂, a₂, m₂⟩ := i₂
  simp only at hP hR hT hA hM
  subst hP hR hT hA hM
  rfl

/-- C2: for every valid input, the recommended strategy is exactly the
specification's selector applied to the computed avalanche and snowball
interest totals and the (defaulted) risk tolerance. -/
theorem c2_decision_policy (d : DebtRepaymentInput) (h : ValidDebtInput d) :
    ∃ r, optimizeDebtRepayment d = .ok r ∧
      r.recommended_strategy =
        recommendStrategySpec
          (calculateStrategyInterest d.loans (generateAvalancheOrder d.loans)
            (d.monthly_surplus.getD 0))
          (calculateStrategyInterest d.loans (generateSnowballOrder d.loans)
            (d.monthly_surplus.getD 0))
          (d.risk_tolerance.getD .medium) :=
  ⟨_, optimizeDebtRepayment_of_valid d h, by
    rw [optimizeCore_recommended]
    exact decisionStrategy_eq_spec _ _ _⟩

/-- C2 witness: the selector characterisation at a concrete valid input. -/
theorem c2_decision_policy_witness :
    ValidDebtInput sampleDebtInput ∧
      ∃ r, optimizeDebtRepayment sampleDebtInput = .ok r ∧
        r.recommended_strategy =
          recommendStrategySpec
            (calculateStrategyInterest sampleDebtInput.loans
              (generateAvalancheOrder sampleDebtInput.loans)
              (sampleDebtInput.monthly_surplus.getD 0))
            (calculateStrategyInterest sampleDebtInput.loans
              (generateSnowballOrder sampleDebtInput.loans)
              (sampleDebtInput.monthly_surplus.getD 0))
            (sampleDebtInput.risk_tolerance.getD .medium) :=
  ⟨by with_unfolding_all decide,
    c2_decision_policy sampleDebtInput (by with_unfolding_all decide)⟩

/-- C6: for every valid input, both orderings are permutations of the input
loan-name multiset; the avalanche order lists the loans sorted by rate
descending (ties: balance descending) and the snowball order lists them
sorted by balance ascending (ties: rate descending). -/
theorem c6_orders_sorted_perm (d : DebtRepaymentInput) (h : ValidDebtInput d) :
    ∃ r, optimizeDebtRepayment d = .ok r ∧
      r.avalanche_order.Perm (d.loans.map Loan.loan_name) ∧
      r.snowball_order.Perm (d.loans.map Loan.loan_name) ∧
      (∃ la : List Loan, la.Perm d.loans ∧ la.Sorted AvalancheBefore ∧
        r.avalanche_order = la.map Loan.loan_name) ∧
      (∃ ls : List Loan, ls.Perm d.loans ∧ ls.Sorted SnowballBefore ∧
        r.snowball_order = ls.map Loan.loan_name) := by
  refine ⟨_, optimizeDebtRepayment_of_valid d h, ?_, ?_, ?_, ?_⟩
  · rw [optimizeCore_avalanche_order]
    exact (List.perm_insertionSort AvalancheBefore d.loans).map Loan.loan_name
  · rw [optimizeCore_snowball_order]
    exact (List.perm_insertionSort SnowballBefore d.loans).map Loan.loan_name
  · exact ⟨_, List.perm_insertionSort AvalancheBefore d.loans,
      List.sorted_insertionSort AvalancheBefore d.loans,
      optimizeCore_avalanche_order _ _ _⟩
  · exact ⟨_, List.perm_insertionSort SnowballBefore d.loans,
      List.sorted_insertionSort SnowballBefore d.loans,
      optimizeCore_snowball_order _ _ _⟩

/-- C6 witness: the ordering characterisation at a concrete valid input. -/
theorem c6_orders_sorted_perm_witness :
    ValidDebtInput sampleDebtInput ∧
      ∃ r, optimizeDebtRepayment sampleDebtInput = .ok r ∧
        r.avalanche_order.Perm (sampleDebtInput.loans.map Loan.loan_name) ∧
        r.snowball_order.Perm (sampleDebtInput.loans.map Loan.loan_name) ∧
        (∃ la : List Loan, la.Perm sampleDebtInput.loans ∧ la.Sorted AvalancheBefore ∧
          r.avalanche_order = la.map Loan.loan_name) ∧
        (∃ ls : List Loan, ls.Perm sampleDebtInput.loans ∧ ls.Sorted SnowballBefore ∧
          r.snowball_order = ls.map Loan.loan_name) :=
  ⟨by with_unfolding_all decide,
    c6_orders_sorted_perm sampleDebtInput (by with_unfolding_all decide)⟩

/-- C4 witness: two concrete valid inputs differing only in `monthlyEMI` and
`outstandingPrincipal` yield the same result. -/
theorem c4_result_ignores_emi_and_outstanding_witness :
    ValidPrepaymentInput ⟨1000, 0, 10, 50, 77, 100, 1⟩ ∧
      calculateLoanPrepaymentImpact ⟨1000, 0, 10, 50, 77, 100, 1⟩ =
        calculateLoanPrepaymentImpact ⟨1000, 0, 10, 999, 3, 100, 1⟩ :=
  ⟨by with_unfolding_all decide,
    c4_result_ignores_emi_and_outstanding _ _ (by with_unfolding_all decide)
      rfl rfl rfl rfl rfl⟩

/-- C7: the simulator's outputs satisfy
`interest_saved = round (max 0 (interestBefore − interestAfter))` and
`tenure_reduction_months = max 0 (originalTenure − newTenure)` (interest
fields rounded to whole currency units); both are non-negative. -/
theorem c7_saved_and_reduction_clamp (i : LoanPrepaymentInput)
    (h : ValidPrepaymentInput i) :
    ∃ res, calculateLoanPrepaymentImpact i = .ok res ∧
      res.interest_before_prepayment = jsRound (interestBeforePrepayment i) ∧
      res.interest_after_prepayment = jsRound (prepaymentSimulation i).1 ∧
      res.interest_saved =
        jsRound (max 0 (interestBeforePrepayment i - (prepaymentSimulation i).1)) ∧
      res.tenure_reduction_months =
        max 0 ((res.original_tenure_months : ℤ) - (res.new_tenure_months : ℤ)) ∧
      0 ≤ res.interest_saved ∧ 0 ≤ res.tenure_reduction_months :=
  ⟨_, calculateLoanPrepaymentImpact_of_valid i h, rfl, rfl, rfl, rfl,
    jsRound_nonneg (le_max_left 0 _), le_max_left 0 _⟩

/-- C7 witness: the clamp identities at a concrete valid input. -/
theorem c7_saved_and_reduction_clamp_witness :
    ValidPrepaymentInput samplePrepaymentInput ∧
      ∃ res, calculateLoanPrepaymentImpact samplePrepaymentInput = .ok res ∧
        res.interest_before_prepayment =
          jsRound (interestBeforePrepayment samplePrepaymentInput) ∧
        res.interest_after_prepayment =
          jsRound (prepaymentSimulation samplePrepaymentInput).1 ∧
        res.interest_saved =
          jsRound (max 0 (interestBeforePrepayment samplePrepaymentInput -
            (prepaymentSimulation samplePrepaymentInput).1)) ∧
        res.tenure_reduction_months =
          max 0 ((res.original_tenure_months : ℤ) - (res.new_tenure_months : ℤ)) ∧
        0 ≤ res.interest_saved ∧ 0 ≤ res.tenure_reduction_months :=
  ⟨by with_unfolding_all decide,
    c7_saved_and_reduction_clamp samplePrepaymentInput (by with_unfolding_all decide)⟩

/-- C8: with `annualInterestRate = 0` the simulator is well defined: the EMI
is `loanPrincipal / loanTenureMonths` (the linear branch, no division by
zero), both interest outputs are `0`, and a result is returned. -/
theorem c8_zero_rate_safe (i : LoanPrepaymentInput) (h : ValidPrepaymentInput i)
    (hr : i.annualInterestRate = 0) :
    ∃ res, calculateLoanPrepaymentImpact i = .ok res ∧
      calculatedEMI i = i.loanPrincipal / i.loanTenureMonths ∧
      res.interest_before_prepayment = 0 ∧ res.interest_after_prepayment = 0 := by
  have hrate : inputMonthlyRate i = 0 := by
    unfold inputMonthlyRate
    rw [hr]
    norm_num
  have hemi : calculatedEMI i = i.loanPrincipal / i.loanTenureMonths := by
    unfold calculatedEMI calculatePMT
    rw [hrate, if_pos rfl]
  have hn : (i.loanTenureMonths : ℚ) ≠ 0 :=
    Nat.cast_ne_zero.mpr h.2.2.1.ne'
  have hbefore : interestBeforePrepayment i = 0 := by
    unfold interestBeforePrepayment
    rw [hemi, div_mul_cancel₀ _ hn, sub_self]
  have hafter : (prepaymentSimulation i).1 = 0 := by
    unfold prepaymentSimulation
    rw [hrate]
    exact prepaymentLoop_zero_rate _ _ _ _ _ _
  exact ⟨_, calculateLoanPrepaymentImpact_of_valid i h, hemi,
    by rw [hbefore, jsRound_zero], by rw [hafter, jsRound_zero]⟩

/-- C8 witness: the zero-rate case at a concrete valid input. -/
theorem c8_zero_rate_safe_witness :
    (ValidPrepaymentInput samplePrepaymentInput ∧
        samplePrepaymentInput.annualInterestRate = 0) ∧
      ∃ res, calculateLoanPrepaymentImpact samplePrepaymentInput = .ok res ∧
        calculatedEMI samplePrepaymentInput =
          samplePrepaymentInput.loanPrincipal / samplePrepaymentInput.loanTenureMonths ∧
        res.interest_before_prepayment = 0 ∧ res.interest_after_prepayment = 0 :=
  ⟨⟨by with_unfolding_all decide, by with_unfolding_all decide⟩,
    c8_zero_rate_safe samplePrepaymentInput (by with_unfolding_all decide)
      (by with_unfolding_all decide)⟩

/-- C9: both simulations are bounded and error-free after validation: the
prepayment loop runs at most `2 × loanTenureMonths` months (so
`new_tenure_months ≤ 2 × loanTenureMonths`), the strategy loop simulates at
most 600 months, and both entry points return results (not errors) on valid
inputs. -/
theorem c9_iteration_caps (i : LoanPrepaymentInput) (d : DebtRepaymentInput)
    (hi : ValidPrepaymentInput i) (hd : ValidDebtInput d) :
    (∃ res, calculateLoanPrepaymentImpact i = .ok res ∧
      res.new_tenure_months ≤ 2 * i.loanTenureMonths) ∧
    (∃ r, optimizeDebtRepayment d = .ok r) ∧
    (∀ (loans : List Loan) (order : List String) (surplus : ℚ)
        (balances : List (String × ℚ)) (paidOff : List String),
      (strategyLoop loans order surplus 600 balances paidOff).2 ≤ 600) :=
  ⟨⟨_, calculateLoanPrepaymentImpact_of_valid i hi,
      prepaymentLoop_months_le_fuel _ _ _ _ _ _ _⟩,
    ⟨_, optimizeDebtRepayment_of_valid d hd⟩,
    fun loans order surplus balances paidOff =>
      strategyLoop_months_le_fuel loans order surplus 600 balances paidOff⟩

/-- C9 witness: the caps at concrete valid inputs. -/
theorem c9_iteration_caps_witness :
    (ValidPrepaymentInput samplePrepaymentInput ∧ ValidDebtInput sampleDebtInput) ∧
      (∃ res, calculateLoanPrepaymentImpact samplePrepaymentInput = .ok res ∧
        res.new_tenure_months ≤ 2 * samplePrepaymentInput.loanTenureMonths) ∧
      (∃ r, optimizeDebtRepayment sampleDebtInput = .ok r) ∧
      (∀ (loans : List Loan) (order : List String) (surplus : ℚ)
          (balances : List (String × ℚ)) (paidOff : List String),
        (strategyLoop loans order surplus 600 balances paidOff).2 ≤ 600) :=
  ⟨⟨by with_unfolding_all decide, by with_unfolding_all decide⟩,
    c9_iteration_caps samplePrepaymentInput sampleDebtInput
      (by with_unfolding_all decide) (by with_unfolding_all decide)⟩

/-- C5: increasing `prepaymentAmount` with the other loan terms fixed never
decreases `interest_saved` and never increases `new_tenure_months`. -/
theorem c5_prepayment_monotone (i₁ i₂ : LoanPrepaymentInput)
    (h : ValidPrepaymentInput i₁)
    (hP : i₁.loanPrincipal = i₂.loanPrincipal)
    (hR : i₁.annualInterestRate = i₂.annualInterestRate)
    (hT : i₁.loanTenureMonths = i₂.loanTenureMonths)
    (hM : i₁.prepaymentMonth = i₂.prepaymentMonth)
    (hE : i₁.monthlyEMI = i₂.monthlyEMI)
    (hO : i₁.outstandingPrincipal = i₂.outstandingPrincipal)
    (hA : i₁.prepaymentAmount ≤ i₂.prepaymentAmount) :
    ∃ res₁ res₂, calculateLoanPrepaymentImpact i₁ = .ok res₁ ∧
      calculateLoanPrepaymentImpact i₂ = .ok res₂ ∧
      res₁.interest_saved ≤ res₂.interest_saved ∧
      res₂.new_tenure_months ≤ res₁.new_tenure_months := by
  obtain ⟨p, rr, n, e₁, o₁, a₁, mm⟩ := i₁
  obtain ⟨p₂, rr₂, n₂, e₂, o₂, a₂, mm₂⟩ := i₂
  simp only at hP hR hT hM hE hO hA ⊢
  subst hP hR hT hM hE hO
  obtain ⟨h1, h2, h3, h4, h5, h6⟩ := h
  simp only at h1 h2 h3 h4 h5 h6
  have hvalid₁ : ValidPrepaymentInput ⟨p, rr, n, e₁, o₁, a₁, mm⟩ :=
    ⟨h1, h2, h3, h4, h5, h6⟩
  have hvalid₂ : ValidPrepaymentInput ⟨p, rr, n, e₁, o₁, a₂, mm⟩ :=
    ⟨h1, h2, h3, lt_of_lt_of_le h4 hA, h5, h6⟩
  have hrate : 0 ≤ inputMonthlyRate ⟨p, rr, n, e₁, o₁, a₁, mm⟩ :=
    inputMonthlyRate_nonneg _ h2
  have key := prepaymentLoop_anti_prepayment
    (inputMonthlyRate ⟨p, rr, n, e₁, o₁, a₁, mm⟩)
    (calculatedEMI ⟨p, rr, n, e₁, o₁, a₁, mm⟩) mm hrate hA (2 * n) 1 p
  refine ⟨_, _, calculateLoanPrepaymentImpact_of_valid _ hvalid₁,
    calculateLoanPrepaymentImpact_of_valid _ hvalid₂, ?_, ?_⟩
  · apply jsRound_mono
    apply max_le_max le_rfl
    have hBB : interestBeforePrepayment ⟨p, rr, n, e₁, o₁, a₂, mm⟩ =
        interestBeforePrepayment ⟨p, rr, n, e₁, o₁, a₁, mm⟩ := rfl
    rw [hBB]
    exact sub_le_sub_left key.1 _
  · exact key.2

/-- C5 witness: monotonicity at two concrete valid inputs differing only in
the prepayment amount. -/
theorem c5_prepayment_monotone_witness :
    ValidPrepaymentInput ⟨1000, 0, 10, 50, 77, 100, 1⟩ ∧
      ∃ res₁ res₂,
        calculateLoanPrepaymentImpact ⟨1000, 0, 10, 50, 77, 100, 1⟩ = .ok res₁ ∧
        calculateLoanPrepaymentImpact ⟨1000, 0, 10, 50, 77, 300, 1⟩ = .ok res₂ ∧
        res₁.interest_saved ≤ res₂.interest_saved ∧
        res₂.new_tenure_months ≤ res₁.new_tenure_months :=
  ⟨by with_unfolding_all decide,
    c5_prepayment_monotone ⟨1000, 0, 10, 50, 77, 100, 1⟩ ⟨1000, 0, 10, 50, 77, 300, 1⟩
      (by with_unfolding_all decide) rfl rfl rfl rfl rfl rfl
      (by with_unfolding_all decide)⟩

/-- C10: on every valid input the simulated payoff finishes within the
original tenure (`new_tenure_months ≤ original_tenure_months`), so the
`max 0` clamp in `tenure_reduction_months` is never binding. -/
theorem c10_new_tenure_le_original (i : LoanPrepaymentInput)
    (h : ValidPrepaymentInput i) :
    ∃ res, calculateLoanPrepaymentImpact i = .ok res ∧
      res.new_tenure_months ≤ res.original_tenure_months ∧
      res.tenure_reduction_months =
        (res.original_tenure_months : ℤ) - (res.new_tenure_months : ℤ) := by
  have hr := inputMonthlyRate_nonneg i h.2.1
  have hemi : 0 < calculatedEMI i := calculatePMT_pos h.1 hr h.2.2.1
  have hmonths0 := prepaymentLoop_no_prepay_months (inputMonthlyRate i)
    (calculatedEMI i) i.prepaymentMonth hr hemi.le i.loanTenureMonths
    (2 * i.loanTenureMonths) 1 i.loanPrincipal (principal_le_emi_annuity i h)
  have hanti := (prepaymentLoop_anti_prepayment (inputMonthlyRate i)
    (calculatedEMI i) i.prepaymentMonth hr h.2.2.2.1.le
    (2 * i.loanTenureMonths) 1 i.loanPrincipal).2
  have hle : (prepaymentSimulation i).2 ≤ i.loanTenureMonths :=
    le_trans hanti hmonths0
  refine ⟨_, calculateLoanPrepaymentImpact_of_valid i h, hle, ?_⟩
  have hnn : (0:ℤ) ≤ (i.loanTenureMonths : ℤ) - ((prepaymentSimulation i).2 : ℤ) :=
    sub_nonneg.mpr (Int.ofNat_le.mpr hle)
  exact max_eq_right hnn

/-- C10 witness: the tenure bound at a concrete valid input. -/
theorem c10_new_tenure_le_original_witness :
    ValidPrepaymentInput samplePrepaymentInput ∧
      ∃ res, calculateLoanPrepaymentImpact samplePrepaymentInput = .ok res ∧
        res.new_tenure_months ≤ res.original_tenure_months ∧
        res.tenure_reduction_months =
          (res.original_tenure_months : ℤ) - (res.new_tenure_months : ℤ) :=
  ⟨by with_unfolding_all decide,
    c10_new_tenure_le_original samplePrepaymentInput (by with_unfolding_all decide)⟩

set_option maxRecDepth 2400 in
/-- C1 (refuting the claim as stated): on the valid input `c1FailingInput`
(two well-behaved loans, non-negative surplus), `optimizeDebtRepayment`
returns `estimated_interest_saved = -0.01 < 0`: the baseline rounds each
loan's total interest to two decimals before summing while the strategy
simulation rounds the summed total, so the recommended strategy is reported
as (slightly) worse than the naive baseline. -/
theorem c1_estimated_interest_saved_negative :
    ∃ r, optimizeDebtRepayment c1FailingInput = .ok r ∧
      r.estimated_interest_saved < 0 := by
  have hvalid : ValidDebtInput c1FailingInput := by with_unfolding_all decide
  refine ⟨_, optimizeDebtRepayment_of_valid _ hvalid, ?_⟩
  have hsur : c1FailingInput.monthly_surplus.getD 0 = 0 := rfl
  have hrt : c1FailingInput.risk_tolerance.getD .medium = .medium := rfl
  rw [hsur, hrt, optimizeCore_saved]
  have hA : generateAvalancheOrder c1FailingInput.loans = ["A", "B"] := by
    with_unfolding_all decide
  have hS : generateSnowballOrder c1FailingInput.loans = ["A", "B"] := by
    with_unfolding_all decide
  rw [hA, hS]
  have hGa : calculateStrategyInterest c1FailingInput.loans ["A", "B"] 0 = 21/100 := by
    with_unfolding_all decide
  have hB : calculateBaselineInterest c1FailingInput.loans = 20/100 := by
    with_unfolding_all decide
  rw [hGa, hB]
  have hd : decisionStrategy (21/100 : ℚ) (21/100) .medium = .avalanche := by
    with_unfolding_all decide
  rw [hd]
  with_unfolding_all decide

end WealthWise
